import Mathlib

/-
Verification of the PicToWebP batch image converter.

The development shallowly embeds the two conversion pipelines of the
repository: the modern one (src/convert.py with src/utils.py, served over
HTTP by src/app.py) and the legacy standalone script (convert_to_webp.py).
File-system effects are made explicit as state passing, Python exceptions
become Except or Option results, and Python float arithmetic is modelled
with rational numbers.
-/

namespace PicToWebP

/-
Running statistics, from the conversion_stats dictionary initialized in
convert.py line 91: three integer fields; total_time is added only after the
dispatch loop finishes.
-/

/-- Conversion statistics accumulated during the dispatch loop
(convert.py line 91: total_original_size, total_converted_size,
conversion_count). -/
structure ConversionStats where
  total_original_size : Int
  total_converted_size : Int
  conversion_count : Int
deriving DecidableEq, Repr

/-- Final statistics handed to the report, after convert.py line 115 stamps
total_time onto the dictionary. Elapsed time is a rational standing in for a
Python float. -/
structure Stats where
  total_original_size : Int
  total_converted_size : Int
  conversion_count : Int
  total_time : ℚ
deriving DecidableEq, Repr

/-- Record logged by generate_report (utils.py lines 152-157). -/
structure Report where
  memory_reduced_mb : ℚ
  reduction_percentage : ℚ
  conversion_count : Int
  total_time : ℚ
deriving DecidableEq, Repr

/-- update_conversion_stats from convert.py lines 39-50: adds the three
numeric contributions onto the running statistics. -/
def update_conversion_stats (stats : ConversionStats)
    (original_size converted_size files_converted : Int) : ConversionStats :=
  { stats with
    total_original_size := stats.total_original_size + original_size
    total_converted_size := stats.total_converted_size + converted_size
    conversion_count := stats.conversion_count + files_converted }

/-- Statistics at run start (convert.py line 91). -/
def stats0 : ConversionStats := ⟨0, 0, 0⟩

/-- Stamping of the elapsed time after the loop, convert.py line 115. -/
def finalize_stats (cs : ConversionStats) (elapsed : ℚ) : Stats :=
  ⟨cs.total_original_size, cs.total_converted_size, cs.conversion_count, elapsed⟩

/-- generate_report from utils.py lines 145-157. The source divides by
total_original_size unconditionally; when that field is zero Python raises
ZeroDivisionError, modelled here by none. Rational arithmetic stands in for
Python floats. -/
def generate_report (stats : Stats) : Option Report :=
  if stats.total_original_size = 0 then none
  else
    some
      { memory_reduced_mb :=
          ((stats.total_original_size : ℚ) - (stats.total_converted_size : ℚ)) / (1024 * 1024)
        reduction_percentage :=
          ((stats.total_original_size : ℚ) - (stats.total_converted_size : ℚ)) /
            (stats.total_original_size : ℚ) * 100
        conversion_count := stats.conversion_count
        total_time := stats.total_time }

/-
Per-file processing, from utils.py process_file (lines 119-143) and the
worker wrapper of convert.py (lines 23-37). The effects of the real file
system on one file are abstracted into a context recording what the stat
call and the open-convert-save sequence would do for that file.
-/

/-- Exception kinds relevant to process_file: exactly the classes named in
its except clause at utils.py line 138. -/
inductive PyError
  | unidentifiedImage
  | permissionDenied
  | fileNotFound
deriving DecidableEq, Repr

instance {ε α : Type} [DecidableEq ε] [DecidableEq α] : DecidableEq (Except ε α) := fun x y =>
  match x, y with
  | Except.ok a, Except.ok b => decidable_of_iff (a = b) (by simp)
  | Except.error a, Except.error b => decidable_of_iff (a = b) (by simp)
  | Except.ok _, Except.error _ => isFalse (by intro hc; exact Except.noConfusion hc)
  | Except.error _, Except.ok _ => isFalse (by intro hc; exact Except.noConfusion hc)

/-- Abstract behavior of the file system for one discovered file: the
outcome of the stat call at utils.py line 133 (size of the source, or the
exception it raises when the file vanished or is unreadable), and the
outcome of the open-convert-save block at lines 136-137 (size of the
written output, or the exception raised). -/
structure FileCtx where
  statResult : Except PyError Int
  saveResult : Except PyError Int
deriving DecidableEq, Repr

/-- process_file from utils.py lines 119-143. The stat call sits before the
try block, so its exception propagates out of process_file; only the
open-convert-save block is guarded, and a caught failure returns the
(0, 0, 0) tuple. -/
def process_file (ctx : FileCtx) : Except PyError (Int × Int × Int) :=
  match ctx.statResult with
  | Except.error e => Except.error e
  | Except.ok original_size =>
    match ctx.saveResult with
    | Except.error _ => Except.ok (0, 0, 0)
    | Except.ok converted_size => Except.ok (original_size, converted_size, 1)

/-- worker from convert.py lines 23-37: calls process_file and catches every
exception, logging it; the except branches fall off the function body, so a
caught exception makes worker return None. -/
def worker (ctx : FileCtx) : Option (Int × Int × Int) :=
  match process_file ctx with
  | Except.ok r => some r
  | Except.error _ => none

/-- Stats accumulation loop of convert.py lines 111-113: the for statement
unpacks each worker result into three names; unpacking a None worker result
raises TypeError, modelled by none, which aborts the run. -/
def accumulate_stats : List (Option (Int × Int × Int)) → ConversionStats → Option ConversionStats
  | [], stats => some stats
  | none :: _, _ => none
  | some (o, c, n) :: rest, stats => accumulate_stats rest (update_conversion_stats stats o c n)

/-- Step function of the accumulation loop applied to one unpacked result
tuple. -/
def apply_result (stats : ConversionStats) (r : Int × Int × Int) : ConversionStats :=
  update_conversion_stats stats r.1 r.2.1 r.2.2

/-- Merge of two partial statistics records through the aggregation step:
the second record contributes its three numeric fields. -/
def merge_stats (a b : ConversionStats) : ConversionStats :=
  update_conversion_stats a b.total_original_size b.total_converted_size b.conversion_count

theorem foldl_apply_result (l : List (Int × Int × Int)) (s : ConversionStats) :
    l.foldl apply_result s =
      ⟨s.total_original_size + (l.map (fun r => r.1)).sum,
       s.total_converted_size + (l.map (fun r => r.2.1)).sum,
       s.conversion_count + (l.map (fun r => r.2.2)).sum⟩ := by
  induction l generalizing s with
  | nil => simp
  | cons a t ih =>
    simp only [List.foldl_cons, ih, List.map_cons, List.sum_cons]
    simp [apply_result, update_conversion_stats, add_assoc]

/-
File discovery, from utils.py get_image_files (lines 86-98). The directory
tree is modelled as the list of entries the recursive walk would visit,
each entry carrying its relative path components and whether it is a
directory; rglob with a star-dot-extension pattern selects exactly the
entries whose final name component ends with that dot-extension, matching
case-sensitively as on a POSIX file system, directories included.
-/

/-- One entry of the directory tree below the source root: its path
components relative to the root and whether the entry is a directory. -/
structure FsEntry where
  path : List String
  isDir : Bool
deriving DecidableEq, Repr

/-- Name of an entry: its final path component. -/
def entryName (e : FsEntry) : String := e.path.getLast?.getD ""

/-- Suffix test on strings through their character lists; a glob pattern of
the form star-dot-extension holds of a name exactly when the name ends with
the dot-extension. -/
def strEndsWith (s suffix : String) : Bool := suffix.data.isSuffixOf s.data

/-- Values of the ImageFormat enum from enums.py lines 7-12, in
declaration order: the patterns of get_image_files are built from all four
members, webp included. -/
def ImageFormatValues : List String := ["png", "jpeg", "jpg", "webp"]

/-- get_image_files from utils.py lines 86-98: one rglob pass per
ImageFormat member, extending the result list each time. -/
def get_image_files (fs : List FsEntry) : List FsEntry :=
  ImageFormatValues.flatMap fun ext =>
    fs.filter fun e => strEndsWith (entryName e) ("." ++ ext)

/-- Python str.lower on the character list of a string. -/
def toLowerStr (s : String) : String := ⟨s.data.map Char.toLower⟩

/-- Discovery predicate as the claim words it: a regular file whose
extension case-insensitively belongs to the allow-list png, jpeg, jpg.
Stated only for comparison with the embedding of the source. -/
def specImageFile (e : FsEntry) : Bool :=
  !e.isDir &&
    (["png", "jpeg", "jpg"].any fun ext => strEndsWith (toLowerStr (entryName e)) ("." ++ ext))

/-
Output-tree state. The conversion run only ever touches siblings of the
source root (the output root and its backup), so the file system is
modelled as the list of existing top-level sibling directories together
with the files filed under each of them.
-/

/-- Directories existing next to the source root, and the files under each,
keyed by the top-level directory name and the path below it. -/
structure RootFs where
  dirs : List String
  filesUnder : List (String × String)
deriving DecidableEq, Repr

/-- Effect of shutil.move on a top-level directory: the directory and every
file under it now sit under the target name. -/
def renameTop (fs : RootFs) (src dst : String) : RootFs :=
  { dirs := fs.dirs.map fun d => if d = src then dst else d
    filesUnder := fs.filesUnder.map fun p => if p.1 = src then (dst, p.2) else p }

/-- Effect of os.makedirs with exist_ok: the directory exists afterwards. -/
def mkdirTop (fs : RootFs) (d : String) : RootFs :=
  { fs with dirs := if d ∈ fs.dirs then fs.dirs else fs.dirs ++ [d] }

/-- Effect of shutil.rmtree on a top-level directory: the directory and
everything under it are gone. -/
def rmtreeTop (fs : RootFs) (d : String) : RootFs :=
  { dirs := fs.dirs.filter fun x => x ≠ d
    filesUnder := fs.filesUnder.filter fun p => p.1 ≠ d }

/-- Output root computed by utils.py create_output_folder line 110: the
source name with an underscore and the lowercased format appended. -/
def outputRoot (source fmt : String) : String := source ++ "_" ++ toLowerStr fmt

/-- Error kinds create_output_folder can raise: OperationCancelledError
from utils.py line 114, or the ValueError raised by
get_user_input_for_folder at line 37 when the retries are exhausted. -/
inductive CreateFolderError
  | operationCancelled
  | valueError
deriving DecidableEq, Repr

/-- get_user_input_for_folder from utils.py lines 21-37: reads and
lowercases one response per retry, accepts it when it belongs to the
allowed set, and raises ValueError after max_retries invalid responses.
The pending console responses are passed as a list; a missing response
reads as the empty string. -/
def get_user_input_for_folder :
    List String → List String → Nat → Except CreateFolderError String
  | _, _, 0 => Except.error CreateFolderError.valueError
  | responses, allowed, n + 1 =>
    let user_input := toLowerStr (responses.headD "")
    if user_input ∈ allowed then Except.ok user_input
    else get_user_input_for_folder responses.tail allowed n

/-- create_output_folder from utils.py lines 100-117, the interactive
variant: when the output root exists the user is prompted; a no answer
raises OperationCancelledError, any other accepted answer removes the old
tree; the root is then created. The updated file system is returned next to
the result so that the error paths demonstrably leave it untouched. -/
def create_output_folder (fs : RootFs) (responses : List String) (source fmt : String) :
    Except CreateFolderError String × RootFs :=
  let output := outputRoot source fmt
  if output ∈ fs.dirs then
    match get_user_input_for_folder responses ["y", "n"] 3 with
    | Except.error e => (Except.error e, fs)
    | Except.ok r =>
      if r = "n" then (Except.error CreateFolderError.operationCancelled, fs)
      else (Except.ok output, mkdirTop (rmtreeTop fs output) output)
  else (Except.ok output, mkdirTop fs output)

/-- Backup name used by convert_to_webp.py line 30: the output name with an
underscore-backup-underscore-timestamp suffix. -/
def backupName (source : String) (ts : Nat) : String :=
  source ++ "_webp_backup_" ++ toString ts

/-- create_output_folder from convert_to_webp.py lines 27-34, the
auto-backup variant: an existing output root is moved aside to the
timestamped backup name, never deleted, and a fresh root is created. -/
def create_output_folder_webp (fs : RootFs) (source : String) (ts : Nat) : String × RootFs :=
  let output := source ++ "_webp"
  if output ∈ fs.dirs then
    (output, mkdirTop (renameTop fs output (backupName source ts)) output)
  else (output, mkdirTop fs output)

/-
Run pipelines. Discovery of the concrete files is abstracted away: the
pipelines take the list of per-file contexts that discovery produced. An
uncaught Python exception terminates the pipeline; the distinct crash
outcomes record which statement raised.
-/

/-- Possible endings of a conversion run. -/
inductive RunOutcome
  | noFiles
  | cancelled
  | uncaughtValueError
  | crashedTypeError
  | crashedZeroDivision
  | crashedFileAccess
  | completed (report : Report)
deriving DecidableEq, Repr

/-- Report carried by a completed outcome, if any. -/
def run_report : RunOutcome → Option Report
  | RunOutcome.completed r => some r
  | _ => none

/-- convert_images from convert.py lines 82-116: an empty discovery result
returns early before any folder is created; OperationCancelledError from
create_output_folder is caught and ends the run, while its ValueError
propagates; then every file is handed to worker through executor.map and
the results are unpacked into update_conversion_stats, a None result
raising TypeError; finally the elapsed time is stamped and generate_report
runs, raising ZeroDivisionError when the original total is zero. -/
def convert_images (fs : RootFs) (responses : List String) (source : String)
    (fileCtxs : List FileCtx) (elapsed : ℚ) : RunOutcome × RootFs :=
  if fileCtxs.isEmpty then (RunOutcome.noFiles, fs)
  else
    match create_output_folder fs responses source "WEBP" with
    | (Except.error CreateFolderError.operationCancelled, fs1) => (RunOutcome.cancelled, fs1)
    | (Except.error CreateFolderError.valueError, fs1) => (RunOutcome.uncaughtValueError, fs1)
    | (Except.ok _, fs1) =>
      match accumulate_stats (fileCtxs.map worker) stats0 with
      | none => (RunOutcome.crashedTypeError, fs1)
      | some cs =>
        match generate_report (finalize_stats cs elapsed) with
        | none => (RunOutcome.crashedZeroDivision, fs1)
        | some r => (RunOutcome.completed r, fs1)

/-- convert route of app.py lines 23-52: after validating quality and
threads it calls convert_images with the WEBP format; out-of-range values
answer with status 400 before the core runs. -/
def app_convert (fs : RootFs) (responses : List String) (source : String)
    (quality threads : Int) (fileCtxs : List FileCtx) (elapsed : ℚ) :
    Except Nat (RunOutcome × RootFs) :=
  if 0 ≤ quality ∧ quality ≤ 100 then
    if 1 ≤ threads then Except.ok (convert_images fs responses source fileCtxs elapsed)
    else Except.error 400
  else Except.error 400

/-- process_file from convert_to_webp.py lines 37-54: the original size is
read and added to the shared statistics before the try block, so a failing
size read propagates; the try block covers conversion and the remaining two
updates, and catches every exception. -/
def process_file_webp (stats : ConversionStats) (ctx : FileCtx) :
    Except PyError ConversionStats :=
  match ctx.statResult with
  | Except.error e => Except.error e
  | Except.ok original_size =>
    let stats1 := { stats with
      total_original_size := stats.total_original_size + original_size }
    match ctx.saveResult with
    | Except.error _ => Except.ok stats1
    | Except.ok converted_size =>
      Except.ok { stats1 with
        total_converted_size := stats1.total_converted_size + converted_size
        conversion_count := stats1.conversion_count + 1 }

/-- Sequential accumulation of process_file_webp over the discovered files,
stopping at the first uncaught exception. -/
def run_files_webp : ConversionStats → List FileCtx → Except PyError ConversionStats
  | s, [] => Except.ok s
  | s, c :: cs =>
    match process_file_webp s c with
    | Except.error e => Except.error e
    | Except.ok s1 => run_files_webp s1 cs

/-- convert_images_to_webp from convert_to_webp.py lines 66-89: no check
for an empty file list, the output folder is created unconditionally with
the auto-backup policy, the files are processed against the shared
statistics, and generate_report runs at the end, raising ZeroDivisionError
when the original total is zero. -/
def convert_images_to_webp (fs : RootFs) (source : String) (ts : Nat)
    (fileCtxs : List FileCtx) (elapsed : ℚ) : RunOutcome × RootFs :=
  let fs1 := (create_output_folder_webp fs source ts).2
  match run_files_webp stats0 fileCtxs with
  | Except.error _ => (RunOutcome.crashedFileAccess, fs1)
  | Except.ok cs =>
    match generate_report (finalize_stats cs elapsed) with
    | none => (RunOutcome.crashedZeroDivision, fs1)
    | some r => (RunOutcome.completed r, fs1)

/-
Dispatch granularity, from convert.py lines 108-113: executor.map submits
the files one at a time, so each unit of work handed to the pool holds a
single file. The batch size the specification describes is stated alongside
for comparison.
-/

/-- Units of work submitted to the thread pool by convert.py lines 108-113:
executor.map over the file list hands each file to worker on its own, so
every dispatch unit is a singleton. -/
def dispatch_units {α : Type} (file_list : List α) : List (List α) :=
  file_list.map fun f => [f]

/-- Batch size as the claim words it, stated only for comparison with the
embedding of the source: max 1 (fileCount / (threadCount * 32)). -/
def claimedBatchSize (fileCount threadCount : Nat) : Nat :=
  max 1 (fileCount / (threadCount * 32))

/-
Served progress feed. app.py line 7 imports global_conversion_progress from
the convert module, but convert.py defines no such name; only the polling
endpoint that reads it is part of the sources. Its maintenance is therefore
modelled from the specification.
-/

/-- Shape of the served progress object: total file count plus the
cumulative statistics so far. -/
structure ConversionProgress where
  numFiles : Nat
  stats : ConversionStats
deriving DecidableEq, Repr

/-- Modelled from the spec: the global_conversion_progress object that
app.py imports from the convert module, whose definition is missing from
the sources. Per the specification it is absent before dispatch begins and
from dispatch on holds the file count and the statistics accumulated over
the completed contributions, updated once per completion; the list below is
the sequence of its states over one run, the head being the state before
dispatch. -/
def global_conversion_progress_states (numFiles : Nat)
    (contribs : List (Int × Int × Int)) : List (Option ConversionProgress) :=
  none :: ((List.range (contribs.length + 1)).map fun k =>
    some { numFiles := numFiles, stats := (contribs.take k).foldl apply_result stats0 })

/-- progress_stream from app.py lines 15-21: each poll of the endpoint
serializes the progress object exactly as it currently is. -/
def progress_stream_poll (p : Option ConversionProgress) : Option ConversionProgress := p

/-
Helper lemmas about the prompt loop and concrete example inputs.
-/

theorem guif_ok_mem (allowed : List String) :
    ∀ (n : Nat) (responses : List String) (r : String),
      get_user_input_for_folder responses allowed n = Except.ok r → r ∈ allowed := by
  intro n
  induction n with
  | zero =>
    intro responses r h
    exact Except.noConfusion h
  | succ n ih =>
    intro responses r h
    simp only [get_user_input_for_folder] at h
    split at h
    · cases h
      assumption
    · exact ih responses.tail r h

theorem guif_error_eq (allowed : List String) :
    ∀ (n : Nat) (responses : List String) (e : CreateFolderError),
      get_user_input_for_folder responses allowed n = Except.error e →
        e = CreateFolderError.valueError := by
  intro n
  induction n with
  | zero =>
    intro responses e h
    cases h
    rfl
  | succ n ih =>
    intro responses e h
    simp only [get_user_input_for_folder] at h
    split at h
    · exact Except.noConfusion h
    · exact ih responses.tail e h

/-- create_output_folder with its let binding unfolded, for case analysis. -/
theorem create_output_folder_cases (fs : RootFs) (responses : List String) (source fmt : String) :
    create_output_folder fs responses source fmt =
      if outputRoot source fmt ∈ fs.dirs then
        match get_user_input_for_folder responses ["y", "n"] 3 with
        | Except.error e => (Except.error e, fs)
        | Except.ok r =>
          if r = "n" then (Except.error CreateFolderError.operationCancelled, fs)
          else (Except.ok (outputRoot source fmt),
                mkdirTop (rmtreeTop fs (outputRoot source fmt)) (outputRoot source fmt))
      else (Except.ok (outputRoot source fmt), mkdirTop fs (outputRoot source fmt)) := rfl

/-- Context of a file that vanished between discovery and the stat call. -/
def vanishedCtx : FileCtx := ⟨Except.error PyError.fileNotFound, Except.ok 0⟩

/-- Context of a file whose open fails with an unreadable-image error. -/
def corruptCtx : FileCtx := ⟨Except.ok 100, Except.error PyError.unidentifiedImage⟩

/-- Context of a file that converts normally. -/
def okCtx : FileCtx := ⟨Except.ok 100, Except.ok 40⟩

/-- State in which the output root for source pics already exists and holds
one file from an earlier run. -/
def collisionFs : RootFs := ⟨["pics_webp"], [("pics_webp", "old.webp")]⟩

/-- State in which the output root for source photos already exists. -/
def collisionFs7 : RootFs := ⟨["photos_webp"], []⟩

/-- State holding the output of a first run against source g. -/
def gFs : RootFs := ⟨["g_webp"], [("g_webp", "a.webp")]⟩

/-- Claim C1: the specification says generate_report guards the division by
totalOriginalSize and emits a zero percentage when that total is zero; the
source divides unconditionally, so a zero total raises ZeroDivisionError,
shown here directly and on a whole run whose only file failed to convert. -/
theorem C1_zero_total_crashes_report :
    generate_report ⟨0, 0, 0, 0⟩ = none ∧
    (convert_images ⟨[], []⟩ [] "pics" [corruptCtx] 2).1 =
      RunOutcome.crashedZeroDivision := by
  exact ⟨rfl, rfl⟩

/-- Claim C2: a source file that vanishes between discovery and open raises
at the stat call, which sits outside the try block of process_file; worker
catches the exception but returns None instead of a tuple, and the
unpacking loop of convert_images then raises TypeError and aborts the run.
Failures inside the guarded open-save block do become the (0, 0, 0)
result. -/
theorem C2_vanished_source_aborts_run :
    worker vanishedCtx = none ∧
    worker corruptCtx = some (0, 0, 0) ∧
    (convert_images ⟨[], []⟩ [] "photos" [vanishedCtx] 1).1 =
      RunOutcome.crashedTypeError := by
  exact ⟨rfl, rfl, rfl⟩

/-- Tree with a webp file, an uppercase png file and a directory whose name
carries a png suffix. -/
def exFs : List FsEntry :=
  [⟨["a.webp"], false⟩, ⟨["B.PNG"], false⟩, ⟨["d.png"], true⟩]

/-- Claim C3 counterexample: on this tree the source selects the webp file,
which the claimed allow-list excludes, and the directory with a png-suffix
name, which the claim excludes as a non-file, while missing the uppercase
png file the claimed case-insensitive matching would include; the claimed
contract selects exactly the uppercase png file. -/
theorem C3_counterexample :
    get_image_files exFs = [⟨["d.png"], true⟩, ⟨["a.webp"], false⟩] ∧
    exFs.filter specImageFile = [⟨["B.PNG"], false⟩] := by
  exact ⟨rfl, rfl⟩

/-- Claim C3 amended: get_image_files returns exactly the tree entries,
directories included, whose name ends case-sensitively with the
dot-extension of one of the four ImageFormat members, webp included. -/
theorem C3_amended_characterization (fs : List FsEntry) (e : FsEntry) :
    e ∈ get_image_files fs ↔
      e ∈ fs ∧
        (ImageFormatValues.any fun ext => strEndsWith (entryName e) ("." ++ ext)) = true := by
  simp only [get_image_files, List.mem_flatMap, List.mem_filter, List.any_eq_true]
  tauto

/-- Claim C4 counterexample: a served run over an existing output root with
console response no is cancelled by the interactive prompt and leaves the
file system untouched, no backup appearing, whereas the auto-backup
resolver of the standalone script renames the root aside; the served path
thus resolves the collision interactively, not with auto-backup. -/
theorem C4_counterexample :
    app_convert collisionFs ["n"] "pics" 80 16 [okCtx] 1 =
      Except.ok (RunOutcome.cancelled, collisionFs) ∧
    (create_output_folder_webp collisionFs "pics" 9).2.dirs =
      ["pics_webp_backup_9", "pics_webp"] := by
  exact ⟨rfl, rfl⟩

/-- Claim C4 amended: the served POST handler dispatches into
convert_images, whose collision handling over an existing output root is
the interactive variant: the run is cancelled exactly when the prompt
answers no; the auto-backup rename is never consulted on this path. -/
theorem C4_amended_interactive (fs : RootFs) (responses : List String) (source : String)
    (fileCtxs : List FileCtx) (elapsed : ℚ)
    (hne : fileCtxs ≠ []) (hdir : outputRoot source "WEBP" ∈ fs.dirs) :
    app_convert fs responses source 80 16 fileCtxs elapsed =
      Except.ok (convert_images fs responses source fileCtxs elapsed) ∧
    ((convert_images fs responses source fileCtxs elapsed).1 = RunOutcome.cancelled ↔
      get_user_input_for_folder responses ["y", "n"] 3 = Except.ok "n") := by
  have hne1 : fileCtxs.isEmpty = false := by
    cases fileCtxs with
    | nil => exact absurd rfl hne
    | cons a l => rfl
  refine ⟨by simp [app_convert], ?_⟩
  unfold convert_images
  rw [hne1]
  simp only [Bool.false_eq_true, if_false, create_output_folder_cases, if_pos hdir]
  cases hg : get_user_input_for_folder responses ["y", "n"] 3 with
  | error e =>
    have he := guif_error_eq ["y", "n"] 3 responses e hg
    subst he
    simp
  | ok r =>
    have hr := guif_ok_mem ["y", "n"] 3 responses r hg
    simp only [List.mem_cons, List.mem_singleton, List.not_mem_nil, or_false] at hr
    rcases hr with hr | hr
    · subst hr
      simp only [if_neg (by decide : ¬ ("y" = "n"))]
      cases hacc : accumulate_stats (fileCtxs.map worker) stats0 with
      | none => simp
      | some cs =>
        cases hrep : generate_report (finalize_stats cs elapsed) with
        | none => simp [hrep]
        | some r2 => simp [hrep]
    · subst hr
      simp

/-- Claim C4 amended, witnessed on a concrete collision state. -/
theorem C4_amended_witness :
    (app_convert collisionFs ["n"] "pics" 80 16 [okCtx] 1 =
      Except.ok (convert_images collisionFs ["n"] "pics" [okCtx] 1) ∧
    ((convert_images collisionFs ["n"] "pics" [okCtx] 1).1 = RunOutcome.cancelled ↔
      get_user_input_for_folder ["n"] ["y", "n"] 3 = Except.ok "n")) :=
  C4_amended_interactive collisionFs ["n"] "pics" [okCtx] 1 (by decide) (by decide)

/-- Claim C5: before dispatch the served progress object is absent, and
every snapshot a poll can observe during the run carries the file count and
the statistics accumulated over the completed contributions, in the claimed
shape. -/
theorem C5_progress_shape (numFiles k : Nat) (contribs : List (Int × Int × Int))
    (hk : k ≤ contribs.length) :
    (global_conversion_progress_states numFiles contribs).head? = some none ∧
    progress_stream_poll
        (some ⟨numFiles, (contribs.take k).foldl apply_result stats0⟩) ∈
      global_conversion_progress_states numFiles contribs := by
  refine ⟨rfl, ?_⟩
  simp only [global_conversion_progress_states, progress_stream_poll, List.mem_cons,
    List.mem_map, List.mem_range]
  exact Or.inr ⟨k, by omega, rfl⟩

/-- Claim C5, witnessed after one of two contributions completed. -/
theorem C5_progress_witness :
    ((global_conversion_progress_states 2 [(10, 4, 1), (20, 8, 1)]).head? = some none ∧
    progress_stream_poll
        (some ⟨2, ([(10, 4, 1), (20, 8, 1)].take 1).foldl apply_result stats0⟩) ∈
      global_conversion_progress_states 2 [(10, 4, 1), (20, 8, 1)]) :=
  C5_progress_shape 2 1 [(10, 4, 1), (20, 8, 1)] (by decide)

/-- Claim C6 counterexample: with no matching files the modern pipeline
returns early with the no-files outcome, which carries no report at all,
and the legacy script reaches generate_report with a zero total and
crashes; neither produces a report with a zero success count. -/
theorem C6_counterexample :
    convert_images ⟨[], []⟩ [] "empty" [] 0 = (RunOutcome.noFiles, ⟨[], []⟩) ∧
    run_report RunOutcome.noFiles = none ∧
    (convert_images_to_webp ⟨[], []⟩ "empty" 7 [] 0).1 = RunOutcome.crashedZeroDivision := by
  exact ⟨rfl, rfl, rfl⟩

/-- Claim C6 amended: a run over a source with no matching files returns
early and successfully in convert_images, creating no folder and emitting
no report, while convert_images_to_webp creates the output folder and then
fails with a division by zero inside generate_report. -/
theorem C6_amended_empty_run (fs : RootFs) (responses : List String) (source : String)
    (elapsed : ℚ) (ts : Nat) :
    convert_images fs responses source [] elapsed = (RunOutcome.noFiles, fs) ∧
    run_report RunOutcome.noFiles = none ∧
    (convert_images_to_webp fs source ts [] elapsed).1 = RunOutcome.crashedZeroDivision ∧
    (convert_images_to_webp fs source ts [] elapsed).2 =
      (create_output_folder_webp fs source ts).2 := by
  exact ⟨rfl, rfl, rfl, rfl⟩

/-- Claim C7 counterexample: with the output root existing and three
invalid console responses the bounded retries are exhausted and
create_output_folder fails with ValueError, not the cancelled-operation
error the claim names. -/
theorem C7_counterexample :
    create_output_folder collisionFs7 ["maybe", "x", "z"] "photos" "WEBP" =
      (Except.error CreateFolderError.valueError, collisionFs7) := by
  rfl

/-- Claim C7 amended: every error exit of create_output_folder leaves the
file system untouched; a declined prompt yields OperationCancelledError
while exhausted retries yield ValueError instead of the cancelled error. -/
theorem C7_amended_error_paths (fs : RootFs) (responses : List String) (source fmt : String)
    (e : CreateFolderError)
    (h : (create_output_folder fs responses source fmt).1 = Except.error e) :
    (create_output_folder fs responses source fmt).2 = fs ∧
    (get_user_input_for_folder responses ["y", "n"] 3 = Except.ok "n" →
      e = CreateFolderError.operationCancelled) ∧
    (get_user_input_for_folder responses ["y", "n"] 3 = Except.error CreateFolderError.valueError →
      e = CreateFolderError.valueError) := by
  rw [create_output_folder_cases] at h ⊢
  by_cases hdir : outputRoot source fmt ∈ fs.dirs
  · rw [if_pos hdir] at h ⊢
    cases hg : get_user_input_for_folder responses ["y", "n"] 3 with
    | error e2 =>
      rw [hg] at h
      have h1 : (Except.error e2 : Except CreateFolderError String) = Except.error e := h
      injection h1 with h2
      refine ⟨rfl, ?_, ?_⟩
      · intro hn
        exact Except.noConfusion hn
      · intro hv
        injection hv with h3
        rw [← h2, h3]
    | ok r =>
      rw [hg] at h
      have hr := guif_ok_mem ["y", "n"] 3 responses r hg
      simp only [List.mem_cons, List.not_mem_nil, or_false] at hr
      rcases hr with hr | hr
      · subst hr
        exact Except.noConfusion h
      · subst hr
        have h1 : (Except.error CreateFolderError.operationCancelled :
            Except CreateFolderError String) = Except.error e := h
        injection h1 with h2
        exact ⟨rfl, fun _ => h2.symm, fun hv => Except.noConfusion hv⟩
  · rw [if_neg hdir] at h
    exact Except.noConfusion h

/-- Claim C7 amended, witnessed on a declined prompt. -/
theorem C7_amended_witness :
    ((create_output_folder collisionFs7 ["n"] "photos" "WEBP").2 = collisionFs7 ∧
    (get_user_input_for_folder ["n"] ["y", "n"] 3 = Except.ok "n" →
      CreateFolderError.operationCancelled = CreateFolderError.operationCancelled) ∧
    (get_user_input_for_folder ["n"] ["y", "n"] 3 = Except.error CreateFolderError.valueError →
      CreateFolderError.operationCancelled = CreateFolderError.valueError)) :=
  C7_amended_error_paths collisionFs7 ["n"] "photos" "WEBP"
    CreateFolderError.operationCancelled (by rfl)

/-- Claim C8 counterexample: with 64 files and one thread the claimed batch
size is 2, yet the source submits 64 units of one file each to the pool; no
dispatch unit has the claimed size. -/
theorem C8_counterexample :
    claimedBatchSize 64 1 = 2 ∧
    (dispatch_units (List.range 64)).length = 64 ∧
    ((dispatch_units (List.range 64)).all fun b => b.length == claimedBatchSize 64 1) = false := by
  exact ⟨rfl, rfl, rfl⟩

/-- Claim C8 amended: dispatch is per file, with no batch partition built:
every discovered file forms its own singleton unit of work, so the units
concatenate back to exactly the discovered list, each file in exactly one
unit and no unit boundary splitting anything. -/
theorem C8_amended_per_file_dispatch {α : Type} (file_list : List α) :
    (dispatch_units file_list).flatten = file_list ∧
    ((dispatch_units file_list).all fun b => b.length == 1) = true := by
  constructor
  · induction file_list with
    | nil => rfl
    | cons a l ih =>
      simp only [dispatch_units, List.map_cons, List.flatten_cons] at ih ⊢
      rw [ih]
      rfl
  · simp [dispatch_units, List.all_eq_true]

/-- Claim C9: folding the aggregation step over any permutation of the
contributions yields the same totals, and the pairwise merge of partial
statistics it induces is commutative and associative, being pure addition
of the three numeric fields. -/
theorem C9_aggregation_order_independent (s a b c : ConversionStats)
    (l1 l2 : List (Int × Int × Int)) (h : l1.Perm l2) :
    l1.foldl apply_result s = l2.foldl apply_result s ∧
    merge_stats a b = merge_stats b a ∧
    merge_stats (merge_stats a b) c = merge_stats a (merge_stats b c) := by
  refine ⟨?_, ?_, ?_⟩
  · rw [foldl_apply_result, foldl_apply_result,
      (h.map fun r => r.1).sum_eq, (h.map fun r => r.2.1).sum_eq,
      (h.map fun r => r.2.2).sum_eq]
  · cases a
    cases b
    simp only [merge_stats, update_conversion_stats, ConversionStats.mk.injEq]
    omega
  · cases a
    cases b
    cases c
    simp only [merge_stats, update_conversion_stats, ConversionStats.mk.injEq]
    omega

/-- Claim C9, witnessed on a concrete swap of two contributions. -/
theorem C9_aggregation_witness :
    ([((1 : Int), (2 : Int), (3 : Int)), (4, 5, 6)].foldl apply_result stats0 =
      [((4 : Int), (5 : Int), (6 : Int)), (1, 2, 3)].foldl apply_result stats0) ∧
    merge_stats ⟨1, 2, 3⟩ ⟨4, 5, 6⟩ = merge_stats ⟨4, 5, 6⟩ ⟨1, 2, 3⟩ ∧
    merge_stats (merge_stats ⟨1, 2, 3⟩ ⟨4, 5, 6⟩) ⟨7, 8, 9⟩ =
      merge_stats ⟨1, 2, 3⟩ (merge_stats ⟨4, 5, 6⟩ ⟨7, 8, 9⟩) :=
  C9_aggregation_order_independent stats0 ⟨1, 2, 3⟩ ⟨4, 5, 6⟩ ⟨7, 8, 9⟩
    [(1, 2, 3), (4, 5, 6)] [(4, 5, 6), (1, 2, 3)] (List.Perm.swap (4, 5, 6) (1, 2, 3) [])

/-- Claim C10: under the auto-backup policy an existing output root is
renamed to the timestamped backup name, every file under it survives under
the backup name, and a fresh output root exists afterwards; nothing is
deleted. -/
theorem C10_auto_backup_preserves (fs : RootFs) (source rel : String) (ts : Nat)
    (hex : source ++ "_webp" ∈ fs.dirs)
    (hfile : (source ++ "_webp", rel) ∈ fs.filesUnder) :
    backupName source ts ∈ (create_output_folder_webp fs source ts).2.dirs ∧
    (backupName source ts, rel) ∈ (create_output_folder_webp fs source ts).2.filesUnder ∧
    source ++ "_webp" ∈ (create_output_folder_webp fs source ts).2.dirs := by
  have hco : create_output_folder_webp fs source ts =
      (source ++ "_webp",
        mkdirTop (renameTop fs (source ++ "_webp") (backupName source ts))
          (source ++ "_webp")) := by
    simp [create_output_folder_webp, hex]
  rw [hco]
  have h1 : backupName source ts ∈
      (renameTop fs (source ++ "_webp") (backupName source ts)).dirs := by
    simp only [renameTop, List.mem_map]
    exact ⟨source ++ "_webp", hex, by simp⟩
  refine ⟨?_, ?_, ?_⟩
  · simp only [mkdirTop]
    split
    · exact h1
    · exact List.mem_append_left _ h1
  · simp only [mkdirTop]
    exact List.mem_map.mpr ⟨(source ++ "_webp", rel), hfile, by simp [renameTop]⟩
  · simp only [mkdirTop]
    split
    · assumption
    · exact List.mem_append_right _ (by simp)

/-- Claim C10, witnessed on the output of a first run. -/
theorem C10_auto_backup_witness :
    (backupName "g" 5 ∈ (create_output_folder_webp gFs "g" 5).2.dirs ∧
    (backupName "g" 5, "a.webp") ∈ (create_output_folder_webp gFs "g" 5).2.filesUnder ∧
    "g" ++ "_webp" ∈ (create_output_folder_webp gFs "g" 5).2.dirs) :=
  C10_auto_backup_preserves gFs "g" "a.webp" 5 (by decide) (by decide)

end PicToWebP
